import Mathlib

/-!
Shallow embedding of the mbed-os parallel export-and-build test harness:
`tools/test/export/build_test.py` (work queue, orchestrator) and
`tools/export/makefile/__init__.py` (the make-based build invoker).
External effects (subprocesses, the filesystem, the external exporter) are
modelled as explicit parameters or environment functions; Python exceptions
become an explicit `Exc` value threaded through with `Option`/`Except`.
-/

/-- Exception kinds crossing the harness's `try`/`except` boundaries.
Modelled from the spec: the classes `TargetNotSupportedException`
(tools/export/exporters), `FailedBuildException` (same module),
`NotSupportedException` (tools/utils) and Python 2's built-in `IOError` and
`OSError` are defined outside the two source files at hand; per the spec's
error taxonomy they are pairwise distinct signals, so they are modelled as
distinct constructors.  In Python 2, `open`/`read` raise `IOError` while
`os.remove`/`os.rename` raise `OSError`, and neither is a subclass of the
other. -/
inductive Exc where
  | targetNotSupported
  | failedBuild (msg : String)
  | notSupported (msg : String)
  | ioError
  | osError
  | other (msg : String)
deriving DecidableEq, Repr

/-- Index of the last occurrence of a character in a list of characters,
in the style of Python's `str.rfind` (but `none` instead of `-1`). -/
def rfindIdx (c : Char) : List Char → Option Nat
  | [] => none
  | x :: xs =>
    match rfindIdx c xs with
    | some i => some (i + 1)
    | none => if x = c then some 0 else none

/-- Python's `posixpath.join` on two components: an absolute second component
replaces the first; otherwise a single separator joins them. -/
def pyJoin (a b : String) : String :=
  if b.data.head? = some '/' then b
  else if a = "" ∨ a.data.getLast? = some '/' then a ++ b
  else a ++ ("/" ++ b)

/-- Python's `posixpath.dirname`: everything up to the last separator, with
trailing separators stripped unless the head is all separators. -/
def pyDirname (p : String) : String :=
  match rfindIdx '/' p.data with
  | none => ""
  | some i =>
    let head := p.data.take (i + 1)
    if head.all (fun ch => ch = '/') then String.mk head
    else String.mk ((head.reverse.dropWhile (fun ch => ch = '/')).reverse)

/-- Root part of Python's `posixpath.splitext`: the extension starts at the
last dot of the basename, provided a non-dot character of the basename
precedes it (so `.bashrc` keeps no extension). -/
def py_splitext_root (p : String) : String :=
  let l := p.data
  let sepIndex : Int := match rfindIdx '/' l with | some i => (i : Int) | none => -1
  let dotIndex : Int := match rfindIdx '.' l with | some i => (i : Int) | none => -1
  if sepIndex < dotIndex then
    let start := (sepIndex + 1).toNat
    let stop := dotIndex.toNat
    if ((l.drop start).take (stop - start)).any (fun ch => ch ≠ '.') then
      String.mk (l.take stop)
    else p
  else p

/-- Substring containment, used to state that a status message embeds a
project name or a descriptive status text. -/
def strContains (s sub : String) : Prop := ∃ a b, s = a ++ (sub ++ b)

/-- Captured output of one `subprocess.Popen` run of the external build tool:
`ret = p.communicate()` gives the full stdout and stderr, `p.returncode` the
exit code. -/
structure ProcOut where
  out : String
  err : String
  returncode : Int
deriving DecidableEq, Repr

/-- The state of one `Makefile` exporter instance as `Makefile.build` reads
it: the optional archive path `self.zipfile`, the export directory
`self.export_dir` and `self.project_name`. -/
structure Makefile where
  zipfile : Option String
  export_dir : String
  project_name : String
deriving DecidableEq, Repr

/-- The exit-code table `ret_dict` of `Makefile.build`
(tools/export/makefile/__init__.py lines 115-129). -/
def ret_dict (c : Int) : Option String :=
  if c = 0 then some "Normal exit with no errors." else
  if c = 1 then some "General purpose error if no other explicit error is known." else
  if c = 2 then some "There was an error in the makefile." else
  if c = 3 then some "A shell line had a non-zero status." else
  if c = 4 then some "Make ran out of memory." else
  if c = 5 then some "The program specified on the shell line was not executable." else
  if c = 6 then some "The shell line was longer than the command processor allowed." else
  if c = 7 then some "The program specified on the shell line could not be found." else
  if c = 8 then some "There was not enough memory to execute the shell line." else
  if c = 9 then some "The shell line produced a device error." else
  if c = 10 then some "The program specified on the shell line became resident." else
  if c = 11 then some "The shell line producedan unknown error." else
  if c = 15 then some "There was a problem with the memory miser." else
  if c = 16 then some "The user hit CTRL+C or CTRL+BREAK.." else
  none

/-- The banner `"=" * 10 + tag + "=" * 10` written around each captured
stream in the build log. -/
def eqBanner (tag : String) : String :=
  String.mk (List.replicate 10 '=') ++ (tag ++ String.mk (List.replicate 10 '='))

/-- The successive `f.write` payloads of `Makefile.build`, in source order:
OUT banner, stdout, ERR banner, stderr, then the status marker chosen by the
exit code. -/
def logWrites (p : ProcOut) : List String :=
  [eqBanner "OUT" ++ "\n", p.out, eqBanner "ERR" ++ "\n", p.err,
   if p.returncode = 0 then "SUCCESS" else "FAILURE"]

/-- Content of a file after a sequence of `f.write` calls: the payloads
concatenated in order. -/
def writesConcat : List String → String
  | [] => ""
  | [s] => s
  | s :: rest => s ++ writesConcat rest

/-- Everything `Makefile.build` does, as data: the subprocess command line,
the log file it writes (path and content), and its outcome — `Except.error`
is a raised `FailedBuildException` carrying the message, `Except.ok` the
returned success string. -/
structure BuildEffects where
  cmd : List String
  log_path : String
  log_content : String
  result : Except String String
deriving Repr

/-- `Makefile.build` (tools/export/makefile/__init__.py lines 107-150),
with the subprocess's captured output and exit code supplied as `p`. -/
def Makefile.build (self : Makefile) (p : ProcOut) : BuildEffects :=
  let proj_file :=
    match self.zipfile with
    | some z => py_splitext_root z
    | none => pyJoin self.export_dir "Makefile"
  let result : Except String String :=
    if p.returncode ≠ 0 then
      Except.error (("Project: " ++ self.project_name) ++
        (" build failed with the status: " ++ ((ret_dict p.returncode).getD "Unknown")))
    else
      Except.ok (("Project: " ++ self.project_name) ++
        (" build succeeded with the status: " ++ ((ret_dict 0).getD "Unknown")))
  { cmd := ["make", "-C", proj_file, "-j"],
    log_path := pyJoin self.export_dir "build_log.txt",
    log_content := writesConcat (logWrites p),
    result := result }

/-- C3: on exit code 0, `Makefile.build` returns (does not raise) a success
string containing the project name; on any non-zero exit code it raises a
`FailedBuildException` whose message contains the project name and the
descriptive text of the exit-code table, or the literal "Unknown" for codes
absent from the table. -/
theorem c3_build_invoker_outcome (m : Makefile) (p : ProcOut) :
    if p.returncode = 0 then
      ∃ s, (m.build p).result = Except.ok s ∧ strContains s m.project_name
    else
      ∃ msg, (m.build p).result = Except.error msg ∧ strContains msg m.project_name ∧
        strContains msg ((ret_dict p.returncode).getD "Unknown") := by
  by_cases h : p.returncode = 0
  · rw [if_pos h]
    refine ⟨("Project: " ++ m.project_name) ++
      (" build succeeded with the status: " ++ ((ret_dict 0).getD "Unknown")), ?_, ?_⟩
    · simp only [Makefile.build]
      rw [if_neg (not_not_intro h)]
    · exact ⟨"Project: ", " build succeeded with the status: " ++ ((ret_dict 0).getD "Unknown"),
        String.append_assoc _ _ _⟩
  · rw [if_neg h]
    refine ⟨("Project: " ++ m.project_name) ++
      (" build failed with the status: " ++ ((ret_dict p.returncode).getD "Unknown")), ?_, ?_, ?_⟩
    · simp only [Makefile.build]
      rw [if_pos h]
    · exact ⟨"Project: ",
        " build failed with the status: " ++ ((ret_dict p.returncode).getD "Unknown"),
        String.append_assoc _ _ _⟩
    · refine ⟨("Project: " ++ m.project_name) ++ " build failed with the status: ", "", ?_⟩
      simp [String.append_empty, String.append_assoc]

/-- C7: every build invocation writes `build_log.txt` in the export
directory, containing the OUT banner, the full captured stdout, the ERR
banner, the full captured stderr, and ending with `SUCCESS` exactly when the
subprocess exit code is 0 and `FAILURE` otherwise. -/
theorem c7_build_log_structure (m : Makefile) (p : ProcOut) :
    (m.build p).log_path = pyJoin m.export_dir "build_log.txt" ∧
    (m.build p).log_content =
      "==========OUT==========\n" ++ (p.out ++ ("==========ERR==========\n" ++
        (p.err ++ (if p.returncode = 0 then "SUCCESS" else "FAILURE")))) := by
  refine ⟨rfl, ?_⟩
  show writesConcat (logWrites p) = _
  simp only [logWrites, writesConcat]
  have hb : eqBanner "OUT" ++ "\n" = "==========OUT==========\n" := by rfl
  have hb2 : eqBanner "ERR" ++ "\n" = "==========ERR==========\n" := by rfl
  rw [hb, hb2]

/-- C9: the concrete `-C` argument of the `make` invocation, evaluated on
both branches of `Makefile.build`.  With an archive, the argument is the
archive path with its extension stripped (here the extraction directory);
without one, the code passes `join(export_dir, "Makefile")` — the path of the
Makefile FILE — although its own comment reads `# > Make -C [project
directory] -j` and `make -C` requires a directory. -/
theorem c9_dash_c_argument :
    (Makefile.build
        { zipfile := some "/exports/K64F_make_gcc_arm_MBED_BLINKY.zip",
          export_dir := "/exports/K64F_make_gcc_arm_MBED_BLINKY",
          project_name := "MBED_BLINKY" }
        { out := "", err := "", returncode := 0 }).cmd =
      ["make", "-C", "/exports/K64F_make_gcc_arm_MBED_BLINKY", "-j"] ∧
    (Makefile.build
        { zipfile := none,
          export_dir := "/exports/K64F_make_gcc_arm_MBED_BLINKY",
          project_name := "MBED_BLINKY" }
        { out := "", err := "", returncode := 0 }).cmd =
      ["make", "-C", "/exports/K64F_make_gcc_arm_MBED_BLINKY/Makefile", "-j"] := by
  exact ⟨by decide, by decide⟩

/-- Fault injection for the log-relocation step: whether the OS makes the
`open`/`read`, the `remove`, or the `rename` call fail.  In Python 2,
`open`/`read` signal failure with `IOError`; `os.remove` and `os.rename`
signal failure with `OSError`. -/
structure LogFaults where
  readFails : Bool
  removeFails : Bool
  renameFails : Bool
deriving DecidableEq, Repr

/-- No injected OS faults. -/
def noFaults : LogFaults := ⟨false, false, false⟩

/-- `os.rename`: raises `OSError` when the source does not exist, or (as on
Windows, the case the source guards against by deleting first) when the
destination already exists; otherwise moves the file.  The filesystem is the
list of existing paths. -/
def fsRename (fs : List String) (src dst : String) : List String × Option Exc :=
  if src ∈ fs ∧ dst ∉ fs then (fs.filter (fun q => q ≠ src) ++ [dst], none)
  else (fs, some Exc.osError)

/-- Creation of a file (a fresh build writing its log): the path becomes
existent. -/
def fsWrite (fs : List String) (q : String) : List String :=
  if q ∈ fs then fs else fs ++ [q]

/-- Destination name of the log relocation in `ExportBuildTest.handle_log`:
`join(EXPORT_DIR, dirname(log) + "_log.txt")`.  `EXPORT_DIR` comes from
`tools.paths` (outside these sources) and is passed as `export_root`. -/
def logDest (export_root log : String) : String :=
  pyJoin export_root (pyDirname log ++ "_log.txt")

/-- `ExportBuildTest.handle_log` (tools/test/export/build_test.py lines
99-111) over the filesystem `fs`: print and read the log (`IOError`, e.g.
from a missing or unreadable file, is caught by `except IOError: pass`);
then delete a pre-existing file at the destination and rename the log into
place — `remove`/`rename` failures are `OSError`, which the `except IOError`
clause does not catch, so they escape as the second component. -/
def handle_log (faults : LogFaults) (export_root : String) (fs : List String)
    (log : String) : List String × Option Exc :=
  if faults.readFails ∨ log ∉ fs then (fs, none)
  else
    let log_name := logDest export_root log
    if log_name ∈ fs then
      if faults.removeFails then (fs, some Exc.osError)
      else if faults.renameFails then (fs.filter (fun q => q ≠ log_name), some Exc.osError)
      else fsRename (fs.filter (fun q => q ≠ log_name)) log log_name
    else
      if faults.renameFails then (fs, some Exc.osError)
      else fsRename fs log log_name

/-- Helper: with no injected `remove`/`rename` fault and a destination name
distinct from the source, `handle_log` returns without an exception on every
filesystem (read failures are swallowed by `except IOError`). -/
theorem handle_log_no_exc (faults : LogFaults) (export_root : String)
    (fs : List String) (log : String)
    (h1 : faults.removeFails = false) (h2 : faults.renameFails = false)
    (h3 : logDest export_root log ≠ log) :
    (handle_log faults export_root fs log).2 = none := by
  unfold handle_log
  by_cases hin : faults.readFails ∨ log ∉ fs
  · rw [if_pos hin]
  · rw [if_neg hin]
    push_neg at hin
    simp only [h1, h2, Bool.false_eq_true, if_false]
    by_cases hdest : logDest export_root log ∈ fs
    · rw [if_pos hdest]
      unfold fsRename
      rw [if_pos ?_]
      constructor
      · exact List.mem_filter.mpr ⟨hin.2, decide_eq_true (fun hh => h3 hh.symm)⟩
      · intro hmem
        exact of_decide_eq_true (List.mem_filter.mp hmem).2 rfl
    · rw [if_neg hdest]
      unfold fsRename
      rw [if_pos ⟨hin.2, hdest⟩]

/-- C5 counterexample: an `OSError` raised by the delete step of the log
relocation is NOT suppressed — `except IOError` does not catch `OSError` in
Python 2, so `handle_log` raises.  Concrete input: the log and a stale
destination file both exist, and the OS fails the `remove` call. -/
theorem c5_oserror_escapes_counterexample :
    (handle_log ⟨false, true, false⟩ "/exp"
        ["/exp/d/build_log.txt", "/exp/d_log.txt"] "/exp/d/build_log.txt").2 =
      some Exc.osError := by decide

/-- C5 amended: failures to READ the log file (Python 2 `IOError` from
`open`/`read`, including a missing log) are suppressed entirely and the step
returns normally; but a failure of the delete or rename call raises
`OSError`, which the `except IOError` handler does not catch — only when
delete and rename succeed does the step never raise. -/
theorem c5_amended_read_failures_suppressed (faults : LogFaults)
    (export_root : String) (fs : List String) (log : String)
    (h1 : faults.removeFails = false) (h2 : faults.renameFails = false)
    (h3 : logDest export_root log ≠ log) :
    (handle_log faults export_root fs log).2 = none :=
  handle_log_no_exc faults export_root fs log h1 h2 h3

/-- C5 amended, witness: a read fault on an existing log is swallowed (the
step completes with no exception). -/
theorem c5_amended_witness :
    (handle_log ⟨true, false, false⟩ "/exp" ["/exp/d/build_log.txt"]
        "/exp/d/build_log.txt").2 = none :=
  c5_amended_read_failures_suppressed ⟨true, false, false⟩ "/exp"
    ["/exp/d/build_log.txt"] "/exp/d/build_log.txt" rfl rfl (by decide)

/-- C8: relocating the same log twice does not raise (absent injected OS
faults): the first invocation moves the log to its destination; whether the
log has been rewritten by a later build (`fsWrite`) or is simply gone, the
second invocation either deletes the pre-existing destination file before
renaming, or swallows the `IOError` of reading a missing source — in every
case no exception escapes. -/
theorem c8_relocation_idempotent (export_root : String) (fs : List String)
    (log : String) (h : logDest export_root log ≠ log) :
    (handle_log noFaults export_root fs log).2 = none ∧
    (handle_log noFaults export_root
        (handle_log noFaults export_root fs log).1 log).2 = none ∧
    (handle_log noFaults export_root
        (fsWrite (handle_log noFaults export_root fs log).1 log) log).2 = none :=
  ⟨handle_log_no_exc noFaults export_root fs log rfl rfl h,
   handle_log_no_exc noFaults export_root _ log rfl rfl h,
   handle_log_no_exc noFaults export_root _ log rfl rfl h⟩

/-- C8 witness: both invocations complete without an exception on a concrete
filesystem, with the log rewritten between them. -/
theorem c8_relocation_idempotent_witness :
    (handle_log noFaults "/exp" ["/exp/d/build_log.txt"] "/exp/d/build_log.txt").2 = none ∧
    (handle_log noFaults "/exp"
        (handle_log noFaults "/exp" ["/exp/d/build_log.txt"] "/exp/d/build_log.txt").1
        "/exp/d/build_log.txt").2 = none ∧
    (handle_log noFaults "/exp"
        (fsWrite (handle_log noFaults "/exp" ["/exp/d/build_log.txt"] "/exp/d/build_log.txt").1
          "/exp/d/build_log.txt")
        "/exp/d/build_log.txt").2 = none :=
  c8_relocation_idempotent "/exp" ["/exp/d/build_log.txt"] "/exp/d/build_log.txt" (by decide)

/-- One `TestCase` of `ExportBuildTest`: the namedtuple built from the test
dictionaries of `main` with keys `ide`, `mcu`, `name`, `id`, `src`, `log`,
`zip` (`None` becomes `none`). -/
structure TestCase where
  ide : String
  mcu : String
  name : String
  id : Option Nat
  src : Option (List String)
  log : String
  zip : Bool
deriving DecidableEq, Repr

/-- The handle the external Project Exporter returns (class `Exporter` of
tools/export/exporters, outside these sources): the export directory, the
optional archive path, and the mutable `generated_files` list the
orchestrator appends to. -/
structure ExportHandle where
  export_dir : String
  zipfile : Option String
  generated_files : List String
deriving DecidableEq, Repr

/-- Outcome of the external calls inside `perform_exports`'s `try` block
(`get_exporter_toolchain`, `extract_profile` and `export`): either an
`ExportHandle` or a raised exception. -/
inductive ExportResult where
  | ok (handle : ExportHandle)
  | err (e : Exc)
deriving DecidableEq, Repr

/-- Outcome of the `try` block of the build loop in `batch_tests` (the zip
extraction followed by `exporter.build()`): either the returned status string
or a raised exception. -/
inductive BuildCallResult where
  | ok (status : String)
  | err (e : Exc)
deriving DecidableEq, Repr

/-- The mutable state of one `ExportBuildTest` instance: counters, the three
result lists, the test list and the build queue of (exporter, test case)
pairs. -/
structure ExportBuildTest where
  total : Nat
  counter : Nat
  successes : List String
  failures : List String
  skips : List String
  tests : List TestCase
  build_queue : List (ExportHandle × TestCase)
deriving DecidableEq, Repr

/-- `ExportBuildTest.__init__`: counters zeroed and the three result lists
empty. -/
def ExportBuildTest.init (tests : List TestCase) : ExportBuildTest :=
  { total := tests.length, counter := 0, successes := [], failures := [],
    skips := [], tests := tests, build_queue := [] }

/-- The result descriptor `"%s::%s\t%s" % (mcu, ide, name)`. -/
def fmtCase (t : TestCase) : String := t.mcu ++ "::" ++ t.ide ++ "\t" ++ t.name

/-- The directory/archive stem `('%s_%s_%s') % (mcu, ide, name)`. -/
def name_str (t : TestCase) : String := t.mcu ++ "_" ++ t.ide ++ "_" ++ t.name

/-- `self.counter += 1`. -/
def bumpCounter (s : ExportBuildTest) : ExportBuildTest :=
  { s with counter := s.counter + 1 }

/-- `ExportBuildTest.perform_exports` (tools/test/export/build_test.py lines
154-180): bump the progress counter, call the external exporter; on success
append the expected log path to the handle's `generated_files` and enqueue
the (exporter, test case) pair; on `TargetNotSupportedException` record the
test case in `skips` and enqueue nothing; any other exception escapes (second
component `some e`). -/
def ExportBuildTest.perform_exports (env : TestCase → ExportResult)
    (export_root : String) (s : ExportBuildTest) (t : TestCase) :
    ExportBuildTest × Option Exc :=
  match env t with
  | ExportResult.ok h =>
      let h := { h with generated_files :=
        h.generated_files ++ [pyJoin (pyJoin export_root (name_str t)) t.log] }
      ({ bumpCounter s with build_queue := s.build_queue ++ [(h, t)] }, none)
  | ExportResult.err Exc.targetNotSupported =>
      ({ bumpCounter s with skips := s.skips ++ [fmtCase t] }, none)
  | ExportResult.err e => (bumpCounter s, some e)

/-- One `Reader.start` call (tools/test/export/build_test.py lines 68-73).
`Reader` overrides `Thread.start` without ever calling it, so no OS thread is
spawned: the `while not queue.empty()` loop runs to completion in the calling
thread.  The worker repeatedly takes the oldest item, applies the function
(here a state transformer that may raise), and calls `task_done`; an
exception escapes the loop with the queue's remainder.  Returns (state,
remaining queue, items the function was invoked on so far, exception). -/
def readerStartS (f : σ → α → σ × Option Exc) :
    σ → List α → List α → σ × List α × List α × Option Exc
  | s, [], done => (s, [], done, none)
  | s, x :: xs, done =>
    match f s x with
    | (s', none) => readerStartS f s' xs (done ++ [x])
    | (s', some e) => (s', xs, done ++ [x], some e)

/-- The `for each in threads: each.start()` loop of `do_queue`: the workers
run one after the other in the calling thread (see `readerStartS`), each
draining whatever the previous ones left. -/
def runReaders (f : σ → α → σ × Option Exc) :
    Nat → σ → List α → List α → σ × List α × List α × Option Exc
  | 0, s, q, done => (s, q, done, none)
  | Nat.succ n, s, q, done =>
    match readerStartS f s q done with
    | (s', q', done', none) => runReaders f n s' q' done'
    | (s', q', done', some e) => (s', q', done', some e)

/-- `do_queue` (tools/test/export/build_test.py lines 51-59): seed the queue
with the items, run the pool of workers, then `q.join()`.  The source builds
`range(20)` workers; the pool size is the parameter `P` here.  Returns the
final state, the list of items the operation was invoked on (in invocation
order), the escaped exception if any, and whether `q.join()` returned — it
blocks until `task_done` has been called once per enqueued item. -/
def do_queue (f : σ → α → σ × Option Exc) (P : Nat) (items : List α) (s : σ) :
    σ × List α × Option Exc × Bool :=
  match runReaders f P s items [] with
  | (s', _q', done, some e) => (s', done, some e, false)
  | (s', _q', done, none) => (s', done, none, done.length == items.length)

/-- Everything after the `try`/`except` of the build loop for one unit:
`handle_log(exporter.generated_files[-1])` and, when `clean` is set,
`rmtree(exporter.export_dir)`.  Their external effects are supplied as
environments `logE` and `rmE`; an exception from either escapes the loop. -/
def afterBuild (logE : ExportHandle × TestCase → Option Exc)
    (rmE : ExportHandle → Option Exc) (clean : Bool) (s : ExportBuildTest)
    (u : ExportHandle × TestCase) : ExportBuildTest × Option Exc :=
  match logE u with
  | some e => (s, some e)
  | none =>
    if clean then
      match rmE u.1 with
      | some e => (s, some e)
      | none => (s, none)
    else (s, none)

/-- One iteration of the build loop of `batch_tests` (lines 121-146): bump
the counter, run the `try` block (zip extraction then `exporter.build()`); a
`FailedBuildException` appends the formatted descriptor to `failures`, a
normal return appends it to `successes`, any other exception escapes; then
relocate the log and optionally clean the export tree. -/
def build_step (tryBody : ExportHandle × TestCase → BuildCallResult)
    (logE : ExportHandle × TestCase → Option Exc) (rmE : ExportHandle → Option Exc)
    (clean : Bool) (s : ExportBuildTest) (u : ExportHandle × TestCase) :
    ExportBuildTest × Option Exc :=
  match tryBody u with
  | BuildCallResult.err (Exc.failedBuild _) =>
      afterBuild logE rmE clean
        { bumpCounter s with failures := s.failures ++ [fmtCase u.2] } u
  | BuildCallResult.err e => (bumpCounter s, some e)
  | BuildCallResult.ok _ =>
      afterBuild logE rmE clean
        { bumpCounter s with successes := s.successes ++ [fmtCase u.2] } u

/-- The `while not self.build_queue.empty()` drain of `batch_tests`: units
are processed in FIFO order; an escaped exception aborts the loop. -/
def runBuilds (tryBody : ExportHandle × TestCase → BuildCallResult)
    (logE : ExportHandle × TestCase → Option Exc) (rmE : ExportHandle → Option Exc)
    (clean : Bool) : ExportBuildTest → List (ExportHandle × TestCase) →
    ExportBuildTest × Option Exc
  | s, [] => (s, none)
  | s, u :: rest =>
    match build_step tryBody logE rmE clean { s with build_queue := rest } u with
    | (s', none) => runBuilds tryBody logE rmE clean s' rest
    | (s', some e) => (s', some e)

/-- `ExportBuildTest.batch_tests` (lines 113-146): phase 1 exports every
test via `do_queue(Reader, self.perform_exports, self.tests)` with the
source's pool of 20; phase 2 resets the counter, sets `total` to the queue
size and drains the build queue sequentially.  The second component is the
exception that aborted the run, if any. -/
def ExportBuildTest.batch_tests (env : TestCase → ExportResult)
    (export_root : String) (tryBody : ExportHandle × TestCase → BuildCallResult)
    (logE : ExportHandle × TestCase → Option Exc) (rmE : ExportHandle → Option Exc)
    (tests : List TestCase) (clean : Bool) : ExportBuildTest × Option Exc :=
  match do_queue (ExportBuildTest.perform_exports env export_root) 20 tests
      (ExportBuildTest.init tests) with
  | (s1, _done, some e, _) => (s1, some e)
  | (s1, _done, none, _joined) =>
    let s2 := { s1 with counter := 0, total := s1.build_queue.length }
    runBuilds tryBody logE rmE clean s2 s2.build_queue

/-- The template candidates `Makefile.generate` tries in order
(tools/export/makefile/__init__.py lines 92-98): the target-specific
template, one per extra label, then the generic one. -/
def templateCandidates (NAME target : String) (extra_labels : List String) :
    List String :=
  ("makefile/" ++ NAME.toLower ++ "_" ++ target.toLower ++ ".tmpl") ::
    (extra_labels.map (fun label =>
        "makefile/" ++ NAME.toLower ++ "_" ++ label.toLower ++ ".tmpl") ++
      ["makefile/" ++ NAME.toLower ++ ".tmpl"])

/-- `Makefile.generate`'s template-selection loop (lines 92-105): `gen_file`
succeeds on the first template that exists (`available`), and the `for`/
`else` raises `NotSupportedException("This make tool is in development")`
when every candidate raises `TemplateNotFound`.  Context assembly, which
cannot fail, is omitted; the chosen template is returned. -/
def Makefile.generate (available : String → Bool) (NAME target : String)
    (extra_labels : List String) : Except Exc String :=
  match (templateCandidates NAME target extra_labels).find? available with
  | some tmpl => Except.ok tmpl
  | none => Except.error (Exc.notSupported "This make tool is in development")

/-- A worker that finds the queue already empty exits at once. -/
theorem readerStartS_nil (f : σ → α → σ × Option Exc) (s : σ) (done : List α) :
    readerStartS f s [] done = (s, [], done, none) := rfl

/-- Workers started after the queue has been drained all exit at once. -/
theorem runReaders_drained (f : σ → α → σ × Option Exc) (n : Nat) (s : σ)
    (done : List α) : runReaders f n s [] done = (s, [], done, none) := by
  induction n with
  | zero => rfl
  | succ n ih => simpa [runReaders, readerStartS] using ih

/-- A pure, never-raising operation lifted to the worker state: the state
accumulates the operation's outputs, one per invocation. -/
def liftPure (g : α → β) : List β → α → List β × Option Exc :=
  fun acc a => (acc ++ [g a], none)

/-- A single worker running a pure operation drains the whole queue in FIFO
order, invoking the operation once per item. -/
theorem readerStartS_pure (g : α → β) :
    ∀ (q : List α) (acc : List β) (done : List α),
      readerStartS (liftPure g) acc q done
        = (acc ++ q.map g, [], done ++ q, none) := by
  intro q
  induction q with
  | nil => intro acc done; simp [readerStartS]
  | cons x xs ih =>
    intro acc done
    simp only [readerStartS, liftPure]
    rw [ih (acc ++ [g x]) (done ++ [x])]
    simp

/-- C2: for every item list and every pool size of at least one worker,
`do_queue` invokes the supplied operation exactly once per item (the
invocation trace is the item list itself, and a pure operation's outputs are
the mapped list), no exception escapes, and `q.join()` returns — i.e.
`do_queue` returns only once every item has been processed — regardless of
the pool size. -/
theorem c2_pool_processes_each_item_once (g : α → β) (P : Nat)
    (items : List α) (hP : 1 ≤ P) :
    do_queue (liftPure g) P items [] = (items.map g, items, none, true) := by
  match P, hP with
  | Nat.succ n, _ =>
    unfold do_queue runReaders
    rw [readerStartS_pure g items [] []]
    simp [runReaders_drained]

/-- C2 witness: three items, the source's pool size of 20. -/
theorem c2_pool_processes_each_item_once_witness :
    do_queue (liftPure (fun n => n + 1)) 20 [1, 2, 3] []
      = ([2, 3, 4], [1, 2, 3], none, true) :=
  c2_pool_processes_each_item_once (fun n => n + 1) 20 [1, 2, 3] (by decide)

/-- C4: a test case for which the exporter raises
`TargetNotSupportedException` is recorded in `skips` and nowhere else, and
nothing is enqueued onto the build queue for it. -/
theorem c4_unsupported_recorded_as_skip (env : TestCase → ExportResult)
    (export_root : String) (s : ExportBuildTest) (t : TestCase)
    (h : env t = ExportResult.err Exc.targetNotSupported) :
    (ExportBuildTest.perform_exports env export_root s t).2 = none ∧
    (ExportBuildTest.perform_exports env export_root s t).1.skips
        = s.skips ++ [fmtCase t] ∧
    (ExportBuildTest.perform_exports env export_root s t).1.successes = s.successes ∧
    (ExportBuildTest.perform_exports env export_root s t).1.failures = s.failures ∧
    (ExportBuildTest.perform_exports env export_root s t).1.build_queue
        = s.build_queue := by
  simp [ExportBuildTest.perform_exports, h, bumpCounter]

/-- Concrete test-case fixture used by the witnesses. -/
def tcFix (nm : String) : TestCase :=
  { ide := "make_gcc_arm", mcu := "K64F", name := nm, id := some 0, src := none,
    log := "build_log.txt", zip := true }

/-- Concrete exporter environment: `SKIPME` is an unsupported pairing,
everything else exports. -/
def envFix : TestCase → ExportResult := fun t =>
  if t.name = "SKIPME" then ExportResult.err Exc.targetNotSupported
  else ExportResult.ok
    { export_dir := pyJoin "/e" (name_str t), zipfile := none, generated_files := [] }

/-- Concrete build environment: `FAILME` fails its build, everything else
succeeds. -/
def tryFix : ExportHandle × TestCase → BuildCallResult := fun u =>
  if u.2.name = "FAILME" then BuildCallResult.err (Exc.failedBuild "boom")
  else BuildCallResult.ok "ok"

/-- Log relocation that never raises. -/
def noneLog : ExportHandle × TestCase → Option Exc := fun _ => none

/-- Export-tree removal that never raises. -/
def noneRm : ExportHandle → Option Exc := fun _ => none

/-- Three-test fixture: one success, one skip, one build failure. -/
def testsFix : List TestCase := [tcFix "MBED_BLINKY", tcFix "SKIPME", tcFix "FAILME"]

/-- C4 witness: the skip is recorded for a concrete unsupported test case. -/
theorem c4_unsupported_recorded_as_skip_witness :
    (ExportBuildTest.perform_exports (fun _ => ExportResult.err Exc.targetNotSupported)
        "/e" (ExportBuildTest.init testsFix) (tcFix "SKIPME")).2 = none ∧
    (ExportBuildTest.perform_exports (fun _ => ExportResult.err Exc.targetNotSupported)
        "/e" (ExportBuildTest.init testsFix) (tcFix "SKIPME")).1.skips
        = (ExportBuildTest.init testsFix).skips ++ [fmtCase (tcFix "SKIPME")] ∧
    (ExportBuildTest.perform_exports (fun _ => ExportResult.err Exc.targetNotSupported)
        "/e" (ExportBuildTest.init testsFix) (tcFix "SKIPME")).1.successes
        = (ExportBuildTest.init testsFix).successes ∧
    (ExportBuildTest.perform_exports (fun _ => ExportResult.err Exc.targetNotSupported)
        "/e" (ExportBuildTest.init testsFix) (tcFix "SKIPME")).1.failures
        = (ExportBuildTest.init testsFix).failures ∧
    (ExportBuildTest.perform_exports (fun _ => ExportResult.err Exc.targetNotSupported)
        "/e" (ExportBuildTest.init testsFix) (tcFix "SKIPME")).1.build_queue
        = (ExportBuildTest.init testsFix).build_queue :=
  c4_unsupported_recorded_as_skip (fun _ => ExportResult.err Exc.targetNotSupported)
    "/e" (ExportBuildTest.init testsFix) (tcFix "SKIPME") rfl

/-- The steps after the build attempt leave the orchestrator state as the
attempt set it (they touch only the filesystem and console). -/
theorem afterBuild_fst (logE : ExportHandle × TestCase → Option Exc)
    (rmE : ExportHandle → Option Exc) (clean : Bool) (s : ExportBuildTest)
    (u : ExportHandle × TestCase) : (afterBuild logE rmE clean s u).1 = s := by
  unfold afterBuild
  split
  · rfl
  · split
    · split
      · rfl
      · rfl
    · rfl

/-- C6: for every processed build unit, a build call that returns without
raising appends exactly the formatted string `"<mcu>::<ide>\t<name>"` to
`successes` (failures untouched); a raised `FailedBuildException` appends the
same formatted string — without the exception's message text — to `failures`
(successes untouched); any other escaped exception records nothing. -/
theorem c6_outcome_strings (tryBody : ExportHandle × TestCase → BuildCallResult)
    (logE : ExportHandle × TestCase → Option Exc) (rmE : ExportHandle → Option Exc)
    (clean : Bool) (s : ExportBuildTest) (u : ExportHandle × TestCase) :
    match tryBody u with
    | BuildCallResult.ok _ =>
        (build_step tryBody logE rmE clean s u).1.successes
            = s.successes ++ [u.2.mcu ++ "::" ++ u.2.ide ++ "\t" ++ u.2.name] ∧
        (build_step tryBody logE rmE clean s u).1.failures = s.failures
    | BuildCallResult.err (Exc.failedBuild _) =>
        (build_step tryBody logE rmE clean s u).1.failures
            = s.failures ++ [u.2.mcu ++ "::" ++ u.2.ide ++ "\t" ++ u.2.name] ∧
        (build_step tryBody logE rmE clean s u).1.successes = s.successes
    | BuildCallResult.err _ =>
        (build_step tryBody logE rmE clean s u).1.successes = s.successes ∧
        (build_step tryBody logE rmE clean s u).1.failures = s.failures := by
  rcases hb : tryBody u with st | e
  · simp [hb, build_step, afterBuild_fst, fmtCase, bumpCounter]
  · cases e <;> simp [hb, build_step, afterBuild_fst, fmtCase, bumpCounter]

/-- C10: only `TargetNotSupportedException` is classified as a skip.  When
none of `Makefile.generate`'s templates is found it raises the DISTINCT
`NotSupportedException`, and an exporter call that raises that exception
propagates out of `perform_exports` uncaught — the run aborts and no skip is
recorded. -/
theorem c10_not_supported_is_fatal (available : String → Bool)
    (NAME target : String) (labels : List String) (env : TestCase → ExportResult)
    (export_root : String) (s : ExportBuildTest) (t : TestCase) (msg : String)
    (havail : ∀ c ∈ templateCandidates NAME target labels, available c = false)
    (henv : env t = ExportResult.err (Exc.notSupported msg)) :
    Makefile.generate available NAME target labels
        = Except.error (Exc.notSupported "This make tool is in development") ∧
    (ExportBuildTest.perform_exports env export_root s t).2
        = some (Exc.notSupported msg) ∧
    (ExportBuildTest.perform_exports env export_root s t).1.skips = s.skips := by
  refine ⟨?_, ?_, ?_⟩
  · unfold Makefile.generate
    rw [List.find?_eq_none.mpr (fun c hc => by rw [havail c hc]; exact Bool.false_ne_true)]
  · simp [ExportBuildTest.perform_exports, henv]
  · simp [ExportBuildTest.perform_exports, henv, bumpCounter]

/-- C10 witness: with no template available anywhere, generation raises the
fatal signal and the orchestrator records no skip for it. -/
theorem c10_not_supported_is_fatal_witness :
    Makefile.generate (fun _ => false) "Make-GCC-ARM" "K64F" []
        = Except.error (Exc.notSupported "This make tool is in development") ∧
    (ExportBuildTest.perform_exports
        (fun _ => ExportResult.err (Exc.notSupported "This make tool is in development"))
        "/e" (ExportBuildTest.init testsFix) (tcFix "MBED_BLINKY")).2
        = some (Exc.notSupported "This make tool is in development") ∧
    (ExportBuildTest.perform_exports
        (fun _ => ExportResult.err (Exc.notSupported "This make tool is in development"))
        "/e" (ExportBuildTest.init testsFix) (tcFix "MBED_BLINKY")).1.skips
        = (ExportBuildTest.init testsFix).skips :=
  c10_not_supported_is_fatal (fun _ => false) "Make-GCC-ARM" "K64F" []
    (fun _ => ExportResult.err (Exc.notSupported "This make tool is in development"))
    "/e" (ExportBuildTest.init testsFix) (tcFix "MBED_BLINKY")
    "This make tool is in development" (fun _ _ => rfl) rfl

/-- An exception-free `perform_exports` call adds exactly one entry to the
skips list or the build queue and touches neither result list. -/
theorem perform_exports_one_entry (env : TestCase → ExportResult)
    (export_root : String) (s : ExportBuildTest) (t : TestCase)
    (s' : ExportBuildTest)
    (h : ExportBuildTest.perform_exports env export_root s t = (s', none)) :
    s'.skips.length + s'.build_queue.length
        = s.skips.length + s.build_queue.length + 1 ∧
    s'.successes = s.successes ∧ s'.failures = s.failures := by
  rcases he : env t with hh | e
  · simp only [ExportBuildTest.perform_exports, he] at h
    injection h with h1 h2
    subst h1
    simp [bumpCounter]
    omega
  · cases e
    case targetNotSupported =>
      simp only [ExportBuildTest.perform_exports, he] at h
      injection h with h1 h2
      subst h1
      simp [bumpCounter]
      omega
    all_goals
      simp only [ExportBuildTest.perform_exports, he] at h
      injection h with h1 h2
      exact Option.noConfusion h2

/-- An export-phase worker that returns without an exception has drained the
queue, adding one skip-or-enqueue entry per item. -/
theorem readerStartS_exports (env : TestCase → ExportResult) (export_root : String) :
    ∀ (q : List TestCase) (s : ExportBuildTest) (done : List TestCase)
      (s' : ExportBuildTest) (q' d' : List TestCase),
      readerStartS (ExportBuildTest.perform_exports env export_root) s q done
          = (s', q', d', none) →
      q' = [] ∧
      s'.skips.length + s'.build_queue.length
          = s.skips.length + s.build_queue.length + q.length ∧
      s'.successes = s.successes ∧ s'.failures = s.failures := by
  intro q
  induction q with
  | nil =>
    intro s done s' q' d' h
    rw [readerStartS_nil] at h
    injection h with h1 h2
    injection h2 with h3 h4
    subst h1
    subst h3
    simp
  | cons x xs ih =>
    intro s done s' q' d' h
    rcases hpe : ExportBuildTest.perform_exports env export_root s x with ⟨s1, e1⟩
    rcases e1 with _ | ex
    · simp only [readerStartS, hpe] at h
      obtain ⟨hq, hlen, hsucc, hfail⟩ := ih s1 (done ++ [x]) s' q' d' h
      obtain ⟨hlen1, hsucc1, hfail1⟩ :=
        perform_exports_one_entry env export_root s x s1 hpe
      refine ⟨hq, ?_, hsucc.trans hsucc1, hfail.trans hfail1⟩
      rw [hlen, hlen1]
      simp [List.length_cons]
      omega
    · simp only [readerStartS, hpe] at h
      injection h with g1 g2
      injection g2 with g3 g4
      injection g4 with g5 g6
      exact Option.noConfusion g6

/-- The whole export pool (any positive number of workers) with no escaped
exception: the first worker drains everything, the others exit at once. -/
theorem runReaders_exports (env : TestCase → ExportResult) (export_root : String)
    (n : Nat) (s : ExportBuildTest) (q : List TestCase) (s' : ExportBuildTest)
    (q' d' : List TestCase)
    (h : runReaders (ExportBuildTest.perform_exports env export_root)
        (n + 1) s q [] = (s', q', d', none)) :
    s'.skips.length + s'.build_queue.length
        = s.skips.length + s.build_queue.length + q.length ∧
    s'.successes = s.successes ∧ s'.failures = s.failures := by
  rcases hr : readerStartS (ExportBuildTest.perform_exports env export_root) s q []
    with ⟨s1, q1, d1, e1⟩
  rcases e1 with _ | ex
  · obtain ⟨hq1, hinv⟩ := readerStartS_exports env export_root q s [] s1 q1 d1 hr
    subst hq1
    simp only [runReaders, hr, runReaders_drained] at h
    injection h with h1 h2
    subst h1
    exact hinv
  · simp only [runReaders, hr] at h
    injection h with g1 g2
    injection g2 with g3 g4
    injection g4 with g5 g6
    exact Option.noConfusion g6

/-- A build-loop iteration that completes without an escaped exception adds
exactly one entry to `successes ++ failures` and never touches `skips`. -/
theorem build_step_none (tryBody : ExportHandle × TestCase → BuildCallResult)
    (logE : ExportHandle × TestCase → Option Exc) (rmE : ExportHandle → Option Exc)
    (clean : Bool) (s : ExportBuildTest) (u : ExportHandle × TestCase)
    (s1 : ExportBuildTest)
    (h : build_step tryBody logE rmE clean s u = (s1, none)) :
    s1.successes.length + s1.failures.length
        = s.successes.length + s.failures.length + 1 ∧
    s1.skips = s.skips := by
  rcases hb : tryBody u with st | e
  · simp only [build_step, hb] at h
    have h1 : s1 = { bumpCounter s with successes := s.successes ++ [fmtCase u.2] } := by
      have h2 := congrArg Prod.fst h
      rw [afterBuild_fst] at h2
      exact h2.symm
    subst h1
    simp [bumpCounter]
    omega
  · cases e
    case failedBuild msg =>
      simp only [build_step, hb] at h
      have h1 : s1 = { bumpCounter s with failures := s.failures ++ [fmtCase u.2] } := by
        have h2 := congrArg Prod.fst h
        rw [afterBuild_fst] at h2
        exact h2.symm
      subst h1
      simp [bumpCounter]
      omega
    all_goals
      simp only [build_step, hb] at h
      injection h with h1 h2
      exact Option.noConfusion h2

/-- Draining the build queue without an escaped exception classifies each
unit as exactly one success or failure and leaves `skips` alone. -/
theorem runBuilds_partition (tryBody : ExportHandle × TestCase → BuildCallResult)
    (logE : ExportHandle × TestCase → Option Exc) (rmE : ExportHandle → Option Exc)
    (clean : Bool) :
    ∀ (units : List (ExportHandle × TestCase)) (s s' : ExportBuildTest),
      runBuilds tryBody logE rmE clean s units = (s', none) →
      s'.successes.length + s'.failures.length
          = s.successes.length + s.failures.length + units.length ∧
      s'.skips = s.skips := by
  intro units
  induction units with
  | nil =>
    intro s s' h
    simp only [runBuilds] at h
    injection h with h1 h2
    subst h1
    simp
  | cons u rest ih =>
    intro s s' h
    rcases hs : build_step tryBody logE rmE clean { s with build_queue := rest } u
      with ⟨s1, e1⟩
    rcases e1 with _ | ex
    · simp only [runBuilds, hs] at h
      obtain ⟨hlen, hskips⟩ := ih s1 s' h
      obtain ⟨hlen1, hskips1⟩ :=
        build_step_none tryBody logE rmE clean { s with build_queue := rest } u s1 hs
      have hsu : ({ s with build_queue := rest } : ExportBuildTest).successes
          = s.successes := rfl
      have hfa : ({ s with build_queue := rest } : ExportBuildTest).failures
          = s.failures := rfl
      have hsk : ({ s with build_queue := rest } : ExportBuildTest).skips
          = s.skips := rfl
      rw [hsu, hfa] at hlen1
      rw [hsk] at hskips1
      refine ⟨?_, hskips.trans hskips1⟩
      simp only [List.length_cons]
      rw [hlen, hlen1]
      omega
    · simp only [runBuilds, hs] at h
      injection h with h1 h2
      exact Option.noConfusion h2

/-- C1: when `batch_tests` completes with no fatal exception, every
submitted test case is recorded in exactly one of the three result lists:
`len(successes) + len(failures) + len(skips)` equals the number of submitted
test cases. -/
theorem c1_results_partition (env : TestCase → ExportResult)
    (export_root : String) (tryBody : ExportHandle × TestCase → BuildCallResult)
    (logE : ExportHandle × TestCase → Option Exc) (rmE : ExportHandle → Option Exc)
    (tests : List TestCase) (clean : Bool)
    (h : (ExportBuildTest.batch_tests env export_root tryBody logE rmE
        tests clean).2 = none) :
    (ExportBuildTest.batch_tests env export_root tryBody logE rmE
        tests clean).1.successes.length
      + (ExportBuildTest.batch_tests env export_root tryBody logE rmE
        tests clean).1.failures.length
      + (ExportBuildTest.batch_tests env export_root tryBody logE rmE
        tests clean).1.skips.length
      = tests.length := by
  rcases hr : runReaders (ExportBuildTest.perform_exports env export_root) 20
      (ExportBuildTest.init tests) tests [] with ⟨t1, q1, d1, er⟩
  rcases er with _ | ex
  · obtain ⟨hlen, hsucc, hfail⟩ := runReaders_exports env export_root 19
      (ExportBuildTest.init tests) tests t1 q1 d1 hr
    simp only [ExportBuildTest.batch_tests, do_queue, hr] at h ⊢
    rcases hb : runBuilds tryBody logE rmE clean
        { t1 with counter := 0, total := t1.build_queue.length }
        ({ t1 with counter := 0, total := t1.build_queue.length } :
          ExportBuildTest).build_queue with ⟨sf, ef⟩
    simp only [hb] at h ⊢
    rcases ef with _ | ex2
    · obtain ⟨hlen2, hskips2⟩ := runBuilds_partition tryBody logE rmE clean
        ({ t1 with counter := 0, total := t1.build_queue.length } :
          ExportBuildTest).build_queue
        { t1 with counter := 0, total := t1.build_queue.length } sf hb
      have hq : ({ t1 with counter := 0, total := t1.build_queue.length } :
          ExportBuildTest).build_queue = t1.build_queue := rfl
      have hsk : ({ t1 with counter := 0, total := t1.build_queue.length } :
          ExportBuildTest).skips = t1.skips := rfl
      simp only [hq, hsk] at hlen2 hskips2
      simp only [ExportBuildTest.init] at hlen hsucc hfail
      simp only [List.length_nil] at hlen
      rw [hskips2]
      rw [show sf.successes.length + sf.failures.length
          = t1.successes.length + t1.failures.length + t1.build_queue.length
          from hlen2]
      rw [hsucc, hfail]
      simp only [List.length_nil, ExportBuildTest.init]
      omega
    · exact Option.noConfusion h
  · simp only [ExportBuildTest.batch_tests, do_queue, hr] at h
    exact Option.noConfusion h

/-- C1 witness: three concrete test cases — one builds, one is skipped as
unsupported, one fails its build — and the three lists partition them. -/
theorem c1_results_partition_witness :
    (ExportBuildTest.batch_tests envFix "/e" tryFix noneLog noneRm
        testsFix false).1.successes.length
      + (ExportBuildTest.batch_tests envFix "/e" tryFix noneLog noneRm
        testsFix false).1.failures.length
      + (ExportBuildTest.batch_tests envFix "/e" tryFix noneLog noneRm
        testsFix false).1.skips.length
      = testsFix.length :=
  c1_results_partition envFix "/e" tryFix noneLog noneRm testsFix false (by rfl)
